import Mathlib

/-!
Verification development for the multi-expert advisory engine
(`advisory.py`) of the cross-asset dashboard repository.

All numeric values of the source are modelled exactly over `ℚ`.
Display-only artefacts are modelled structurally: each distinct
reasoning format string of the source becomes a constructor carrying
the numeric values interpolated into it; purely decorative data
(icons, display names inside the `SignalStrength` enum, and the
`key_metrics` mapping, which holds pre-formatted display strings and
is never read back by the engine) is omitted.
-/

namespace Advisory

/-- The `SignalStrength` enum of `advisory.py`: six ordered levels. -/
inductive SignalStrength
  | STRONG_BUY
  | BUY
  | WEAK_BUY
  | HOLD
  | WEAK_SELL
  | SELL
deriving DecidableEq

/-- The numeric `score` carried by each `SignalStrength` member
(`STRONG_BUY` 5 down to `SELL` 0).  Scores are integers in the source;
they are modelled in `ℚ` because the engine averages them. -/
def SignalStrength.score : SignalStrength → ℚ
  | .STRONG_BUY => 5
  | .BUY => 4
  | .WEAK_BUY => 3
  | .HOLD => 2
  | .WEAK_SELL => 1
  | .SELL => 0

/-- Reasoning strings of `_trend_analysis`, one constructor per format
string of the source (data-insufficient, bullish alignment, bearish
alignment, above MA50, MAs entangled). -/
inductive TrendBase
  | insufficientData
  | bullishAlign (price ma10 ma50 : ℚ)
  | bearishAlign (price ma10 ma50 : ℚ)
  | aboveMA50
  | entangled (ma10 ma50 : ℚ)
deriving DecidableEq

/-- The optional 120-SMA qualitative note `_trend_analysis` appends to
its reasoning string (`strong` above +5%, `weak` below −5%, `near`
otherwise), carrying the percentage distance it reports. -/
inductive Note120
  | strong (dist : ℚ)
  | weak (dist : ℚ)
  | near (dist : ℚ)
deriving DecidableEq

/-- Reasoning strings of `_mean_reversion_analysis`. -/
inductive MeanRevReason
  | oversold (rsi dist : ℚ)
  | overbought (rsi dist : ℚ)
  | nearOversold (rsi weekPos : ℚ)
  | nearOverbought (rsi weekPos : ℚ)
  | neutral (rsi dist : ℚ)
deriving DecidableEq

/-- Reasoning strings of `_momentum_analysis`. -/
inductive MomentumReason
  | strongMomentum (ytd change1d : ℚ)
  | weaknessPersists (ytd : ℚ)
  | lowVolConsolidation (ytd : ℚ)
  | neutral (ytd volatility : ℚ)
deriving DecidableEq

/-- Reasoning strings of `_fundamental_analysis`. -/
inductive FundamentalReason
  | valueZone (weekPos : ℚ)
  | overvalued (weekPos : ℚ)
  | belowMidpoint (weekPos : ℚ)
  | neutral (weekPos : ℚ)
deriving DecidableEq

/-- Reasoning strings of `_bb_cci_analysis`. -/
inductive BbCciReason
  | strongRebound (bbPct cci : ℚ)
  | oversoldZone (bbPct cci : ℚ)
  | pullbackRisk (bbPct cci : ℚ)
  | overboughtZone (bbPct cci : ℚ)
  | middleNeutral (bbPct cci : ℚ)
  | middleWeak (cci : ℚ)
  | middleStrong (cci : ℚ)
  | fallback (position : String) (bbPct cci : ℚ)
deriving DecidableEq

/-- Reasoning strings of `_calculate_consensus` (the four branches:
buy-majority, sell-majority, high consensus, experts diverge). -/
inductive ConsensusReason
  | buyMajority (count : ℕ) (disagreement : ℚ)
  | sellMajority (count : ℕ)
  | highConsensus
  | diverging (disagreement : ℚ)
deriving DecidableEq

/-- A reasoning value produced by one of the five experts. -/
inductive Reasoning
  | trend (base : TrendBase) (note : Option Note120)
  | meanRev (r : MeanRevReason)
  | momentum (r : MomentumReason)
  | fundamental (r : FundamentalReason)
  | bbCci (r : BbCciReason)
deriving DecidableEq

/-- The `ExpertOpinion` dataclass (the `key_metrics` display mapping is
not modelled; it holds pre-formatted strings and is never read). -/
structure ExpertOpinion where
  expert_name : String
  signal : SignalStrength
  reasoning : Reasoning
  confidence : ℚ
deriving DecidableEq

/-- The `AssetRecommendation` dataclass. -/
structure AssetRecommendation where
  symbol : String
  name : String
  category : String
  current_price : ℚ
  trend_expert : ExpertOpinion
  mean_rev_expert : ExpertOpinion
  momentum_expert : ExpertOpinion
  fundamental_expert : ExpertOpinion
  bb_cci_expert : ExpertOpinion
  consensus_signal : SignalStrength
  consensus_score : ℚ
  consensus_reasoning : ConsensusReason
  risk_level : String
  position_size : String
  stop_loss : ℚ
  take_profit : ℚ
  rank_in_category : ℕ
  overall_rank : ℕ
deriving DecidableEq

/-- An instrument reading: the flat mapping `analyze_asset` consumes.
Each schema field the engine reads is an optional value (`none` when
the key is missing, so `data.get(key, default)` becomes `getD`). -/
structure Reading where
  current_price : Option ℚ := none
  ma_10 : Option ℚ := none
  ma_50 : Option ℚ := none
  rsi : Option ℚ := none
  daily_change_pct : Option ℚ := none
  ytd_return : Option ℚ := none
  volatility : Option ℚ := none
  high_52w : Option ℚ := none
  low_52w : Option ℚ := none
  ma_120 : Option ℚ := none
  bb_upper : Option ℚ := none
  bb_lower : Option ℚ := none
  bb_middle : Option ℚ := none
  bb_position : Option String := none
  bb_width : Option ℚ := none
  cci_120 : Option ℚ := none
  name : Option String := none
  category : Option String := none
deriving DecidableEq

/-- Python's `not data` test on the reading mapping: true when the
mapping has no keys at all. -/
def Reading.isEmpty (r : Reading) : Bool :=
  r.current_price.isNone && r.ma_10.isNone && r.ma_50.isNone && r.rsi.isNone &&
  r.daily_change_pct.isNone && r.ytd_return.isNone && r.volatility.isNone &&
  r.high_52w.isNone && r.low_52w.isNone && r.ma_120.isNone && r.bb_upper.isNone &&
  r.bb_lower.isNone && r.bb_middle.isNone && r.bb_position.isNone &&
  r.bb_width.isNone && r.cci_120.isNone && r.name.isNone && r.category.isNone

/-- `_trend_analysis`: signal, base reasoning, and the optional 120-SMA
note appended to the reasoning string.  The source guard
`if ma_120 and ma_120 != 0` is, for a numeric argument, the single test
`ma_120 ≠ 0`. -/
def trendAnalysis (price ma10 ma50 change_1d ma_120 : ℚ) :
    SignalStrength × TrendBase × Option Note120 :=
  if ma50 = 0 then
    (.HOLD, .insufficientData, none)
  else
    let sr : SignalStrength × TrendBase :=
      if price > ma10 ∧ ma10 > ma50 ∧ change_1d > 0 then
        (.BUY, .bullishAlign price ma10 ma50)
      else if price < ma10 ∧ ma10 < ma50 ∧ change_1d < 0 then
        (.SELL, .bearishAlign price ma10 ma50)
      else if price > ma50 then
        (.WEAK_BUY, .aboveMA50)
      else
        (.HOLD, .entangled ma10 ma50)
    let note : Option Note120 :=
      if ma_120 ≠ 0 then
        let dist_120 := (price - ma_120) / ma_120 * 100
        some (if dist_120 > 5 then .strong dist_120
              else if dist_120 < -5 then .weak dist_120
              else .near dist_120)
      else none
    (sr.1, sr.2, note)

/-- `_mean_reversion_analysis`. -/
def meanReversionAnalysis (price ma50 rsi week_position change_1d : ℚ) :
    SignalStrength × MeanRevReason :=
  let dist_to_ma : ℚ := if ma50 ≠ 0 then (price - ma50) / ma50 * 100 else 0
  if rsi < 30 ∧ dist_to_ma < -5 then
    (.STRONG_BUY, .oversold rsi dist_to_ma)
  else if rsi > 70 ∧ dist_to_ma > 5 then
    (.SELL, .overbought rsi dist_to_ma)
  else if rsi < 40 ∧ week_position < 30 then
    (.BUY, .nearOversold rsi week_position)
  else if rsi > 60 ∧ week_position > 70 then
    (.WEAK_SELL, .nearOverbought rsi week_position)
  else
    (.HOLD, .neutral rsi dist_to_ma)

/-- `_momentum_analysis`. -/
def momentumAnalysis (ytd change_1d rsi volatility : ℚ) :
    SignalStrength × MomentumReason :=
  if ytd > 15 ∧ change_1d > 0 ∧ rsi > 50 then
    (.BUY, .strongMomentum ytd change_1d)
  else if ytd < -10 ∧ change_1d < 0 then
    (.WEAK_SELL, .weaknessPersists ytd)
  else if |ytd| < 5 ∧ volatility < 15 then
    (.WEAK_BUY, .lowVolConsolidation ytd)
  else
    (.HOLD, .neutral ytd volatility)

/-- `_fundamental_analysis` (the `price`, `ma50`, `rsi` and `symbol`
parameters are accepted but unused, as in the source). -/
def fundamentalAnalysis (price ma50 rsi week_position volatility : ℚ)
    (symbol : String) : SignalStrength × FundamentalReason :=
  if week_position < 25 ∧ volatility < 20 then
    (.BUY, .valueZone week_position)
  else if week_position > 80 then
    (.WEAK_SELL, .overvalued week_position)
  else if week_position < 50 then
    (.WEAK_BUY, .belowMidpoint week_position)
  else
    (.HOLD, .neutral week_position)

/-- `_bb_cci_analysis`: the Band+Oscillator expert. -/
def bbCciAnalysis (price bb_upper bb_lower bb_middle : ℚ) (bb_position : String)
    (bb_width cci_120 : ℚ) : SignalStrength × BbCciReason :=
  let bb_pct : ℚ :=
    if bb_upper ≠ bb_lower then (price - bb_lower) / (bb_upper - bb_lower) * 100 else 50
  if bb_position = "lower" ∧ cci_120 < -100 then
    (.STRONG_BUY, .strongRebound bb_pct cci_120)
  else if bb_position = "lower" ∨ cci_120 < -100 then
    (.BUY, .oversoldZone bb_pct cci_120)
  else if bb_position = "upper" ∧ cci_120 > 100 then
    (.SELL, .pullbackRisk bb_pct cci_120)
  else if bb_position = "upper" ∨ cci_120 > 100 then
    (.WEAK_SELL, .overboughtZone bb_pct cci_120)
  else if bb_position = "middle" then
    if -50 < cci_120 ∧ cci_120 < 50 then
      (.HOLD, .middleNeutral bb_pct cci_120)
    else if cci_120 < -50 then
      (.WEAK_BUY, .middleWeak cci_120)
    else
      (.WEAK_SELL, .middleStrong cci_120)
  else
    (.HOLD, .fallback bb_position bb_pct cci_120)

/-- `_calculate_consensus`: composite signal, 0–100 composite score,
consensus reasoning and risk tier from the five expert opinions.
Python's `max(signals)` / `min(signals)` on the non-empty list are
modelled as folds seeded with the first element. -/
def calculateConsensus (trend mean_rev momentum fundamental bb_cci : ExpertOpinion) :
    SignalStrength × ℚ × ConsensusReason × String :=
  let signals : List ℚ := [trend.signal.score, mean_rev.signal.score,
    momentum.signal.score, fundamental.signal.score, bb_cci.signal.score]
  let weights : List ℚ := [0.2, 0.2, 0.2, 0.2, 0.2]
  let weighted_score : ℚ := ((signals.zip weights).map (fun sw => sw.1 * sw.2)).sum
  let avg_score := weighted_score
  let disagreement : ℚ :=
    signals.foldl max trend.signal.score - signals.foldl min trend.signal.score
  let consensus : SignalStrength :=
    if avg_score ≥ 4.5 then .STRONG_BUY
    else if avg_score ≥ 3.5 then .BUY
    else if avg_score ≥ 2.5 then .WEAK_BUY
    else if avg_score ≥ 1.5 then .HOLD
    else if avg_score ≥ 0.5 then .WEAK_SELL
    else .SELL
  let buy_count : ℕ := signals.countP (fun s => decide (s ≥ 3))
  let sell_count : ℕ := signals.countP (fun s => decide (s ≤ 1))
  let reason : ConsensusReason :=
    if buy_count ≥ 3 then .buyMajority buy_count disagreement
    else if sell_count ≥ 2 then .sellMajority sell_count
    else if disagreement ≤ 1 then .highConsensus
    else .diverging disagreement
  let risk : String :=
    if disagreement ≥ 3 then "高"
    else if disagreement ≥ 2 then "中"
    else "低"
  let consensus_100 : ℚ := avg_score / 5 * 100
  (consensus, consensus_100, reason, risk)

/-- `_calculate_position_size`. -/
def calculatePositionSize (score : ℚ) (risk : String) (volatility : ℚ) : String :=
  if score ≥ 80 ∧ risk = "低" then "15-20%"
  else if score ≥ 70 then "10-15%"
  else if score ≥ 60 then "5-10%"
  else if score ≥ 40 then "3-5%（观察仓）"
  else "0-2%（试探性）"

/-- `_calculate_stop_loss`. -/
def calculateStopLoss (price volatility : ℚ) (signal : SignalStrength) : ℚ :=
  let stop_pct : ℚ :=
    if signal.score ≥ 4 then max (volatility * 1.5) 5
    else if signal.score ≤ 1 then max volatility 3
    else volatility * 2
  price * (1 - stop_pct / 100)

/-- `_calculate_take_profit`. -/
def calculateTakeProfit (price volatility : ℚ) (signal : SignalStrength) : ℚ :=
  let tp_pct : ℚ :=
    if signal.score ≥ 4 then max (volatility * 3) 10
    else volatility * 2
  price * (1 + tp_pct / 100)

/-- `analyze_asset`: `None` for an empty reading, otherwise the full
five-expert recommendation (with both rank fields initialised to 0, as
in the dataclass construction). -/
def analyzeAsset (symbol : String) (data : Reading) : Option AssetRecommendation :=
  if data.isEmpty then none
  else
    let price := data.current_price.getD 0
    let ma10 := data.ma_10.getD price
    let ma50 := data.ma_50.getD price
    let rsi := data.rsi.getD 50
    let change_1d := data.daily_change_pct.getD 0
    let change_ytd := data.ytd_return.getD 0
    let volatility := data.volatility.getD 0
    let high_52w := data.high_52w.getD price
    let low_52w := data.low_52w.getD price
    let week_range : ℚ := if high_52w ≠ low_52w then high_52w - low_52w else 1
    let week_position : ℚ := (price - low_52w) / week_range * 100
    let ma_120 := data.ma_120.getD ma50
    let bb_upper := data.bb_upper.getD (price * 1.02)
    let bb_lower := data.bb_lower.getD (price * 0.98)
    let bb_middle := data.bb_middle.getD price
    let bb_position := data.bb_position.getD "middle"
    let bb_width := data.bb_width.getD 4
    let cci_120 := data.cci_120.getD 0
    let tr := trendAnalysis price ma10 ma50 change_1d ma_120
    let trend_expert : ExpertOpinion :=
      { expert_name := "趋势专家 (Trend Following)"
        signal := tr.1
        reasoning := .trend tr.2.1 tr.2.2
        confidence := if |change_1d| > 2 then 0.75 else 0.6 }
    let mr := meanReversionAnalysis price ma50 rsi week_position change_1d
    let mean_rev_expert : ExpertOpinion :=
      { expert_name := "均值回归专家 (Mean Reversion)"
        signal := mr.1
        reasoning := .meanRev mr.2
        confidence := if rsi < 30 ∨ rsi > 70 then 0.8 else 0.5 }
    let mo := momentumAnalysis change_ytd change_1d rsi volatility
    let momentum_expert : ExpertOpinion :=
      { expert_name := "动量专家 (Momentum)"
        signal := mo.1
        reasoning := .momentum mo.2
        confidence := if |change_ytd| > 10 then 0.7 else 0.55 }
    let fu := fundamentalAnalysis price ma50 rsi week_position volatility symbol
    let fundamental_expert : ExpertOpinion :=
      { expert_name := "价值专家 (Value)"
        signal := fu.1
        reasoning := .fundamental fu.2
        confidence := 0.65 }
    let bc := bbCciAnalysis price bb_upper bb_lower bb_middle bb_position bb_width cci_120
    let bb_cci_expert : ExpertOpinion :=
      { expert_name := "BB+CCI专家 (User Pref)"
        signal := bc.1
        reasoning := .bbCci bc.2
        confidence := 0.85 }
    let cons := calculateConsensus trend_expert mean_rev_expert momentum_expert
      fundamental_expert bb_cci_expert
    let position_size := calculatePositionSize cons.2.1 cons.2.2.2 volatility
    let stop_loss := calculateStopLoss price volatility cons.1
    let take_profit := calculateTakeProfit price volatility cons.1
    some
      { symbol := symbol
        name := data.name.getD symbol
        category := data.category.getD "unknown"
        current_price := price
        trend_expert := trend_expert
        mean_rev_expert := mean_rev_expert
        momentum_expert := momentum_expert
        fundamental_expert := fundamental_expert
        bb_cci_expert := bb_cci_expert
        consensus_signal := cons.1
        consensus_score := cons.2.1
        consensus_reasoning := cons.2.2.1
        risk_level := cons.2.2.2
        position_size := position_size
        stop_loss := stop_loss
        take_profit := take_profit
        rank_in_category := 0
        overall_rank := 0 }

/-- The enumeration pass of `analyze_all`: walk the category mapping in
order, then each category's symbol mapping in order; skip falsy (empty)
readings, analyze the rest, and overwrite `category` with the outer
mapping key (`rec.category = category` in the source). -/
def enumerateRecs (data : List (String × List (String × Reading))) :
    List AssetRecommendation :=
  data.flatMap fun ca =>
    ca.2.filterMap fun si =>
      if si.2.isEmpty then none
      else (analyzeAsset si.1 si.2).map fun rec => { rec with category := ca.1 }

/-- The descending comparison `analyze_all` sorts by:
`scoreGE a b` holds when `a`'s composite score is at least `b`'s. -/
def scoreGE (a b : AssetRecommendation) : Prop :=
  b.consensus_score ≤ a.consensus_score

instance : DecidableRel scoreGE := fun a b =>
  inferInstanceAs (Decidable (b.consensus_score ≤ a.consensus_score))

instance : IsTotal AssetRecommendation scoreGE :=
  ⟨fun a b => le_total b.consensus_score a.consensus_score⟩

instance : IsTrans AssetRecommendation scoreGE :=
  ⟨fun _ _ _ hab hbc => le_trans hbc hab⟩

/-- `recommendations.sort(key=..., reverse=True)`: Python's sort is
stable; a stable descending sort is modelled by insertion sort with the
`scoreGE` comparison (ties keep the earlier element first). -/
def sortRecs (l : List AssetRecommendation) : List AssetRecommendation :=
  List.insertionSort scoreGE l

/-- The `for i, rec in enumerate(recommendations): rec.overall_rank = i + 1`
loop, with the running position made explicit. -/
def assignOverallFrom (n : ℕ) : List AssetRecommendation → List AssetRecommendation
  | [] => []
  | rec :: rest => { rec with overall_rank := n } :: assignOverallFrom (n + 1) rest

/-- The per-category running-counter loop assigning `rank_in_category`
(the `category_ranks` dict becomes the counter function `f`). -/
def assignCatRanks (f : String → ℕ) :
    List AssetRecommendation → List AssetRecommendation
  | [] => []
  | rec :: rest =>
      let n := f rec.category + 1
      { rec with rank_in_category := n } ::
        assignCatRanks (fun c => if c = rec.category then n else f c) rest

/-- `analyze_all`: enumerate, sort by composite score descending,
assign overall ranks, then per-category ranks (the `category_counts`
dict computed by the source is dead code and not modelled). -/
def analyzeAll (data : List (String × List (String × Reading))) :
    List AssetRecommendation :=
  assignCatRanks (fun _ => 0) (assignOverallFrom 1 (sortRecs (enumerateRecs data)))

/-- Erase the two rank fields of a recommendation; used to state that
ranking only sets ranks and otherwise preserves records and their
order. -/
def resetRanks (rec : AssetRecommendation) : AssetRecommendation :=
  { rec with overall_rank := 0, rank_in_category := 0 }

/-! Spec-side definitions: tables written from the specification's
words, to be compared with the code-derived functions above. -/

/-- The spec's fixed threshold table mapping an averaged expert score
to the composite Signal: ≥4.5 STRONG_BUY, ≥3.5 BUY, ≥2.5 WEAK_BUY,
≥1.5 HOLD, ≥0.5 WEAK_SELL, else SELL. -/
def signalFromAvg (avg : ℚ) : SignalStrength :=
  if avg ≥ 4.5 then .STRONG_BUY
  else if avg ≥ 3.5 then .BUY
  else if avg ≥ 2.5 then .WEAK_BUY
  else if avg ≥ 1.5 then .HOLD
  else if avg ≥ 0.5 then .WEAK_SELL
  else .SELL

/-- The spec's priority rule table for the Trend expert (first match
wins); it does not consult the 120-period MA. -/
def trendSpecSignal (price ma10 ma50 change_1d : ℚ) : SignalStrength :=
  if price > ma10 ∧ ma10 > ma50 ∧ change_1d > 0 then .BUY
  else if price < ma10 ∧ ma10 < ma50 ∧ change_1d < 0 then .SELL
  else if price > ma50 then .WEAK_BUY
  else .HOLD

/-- The spec's priority rule table for the Mean-Reversion expert, with
`dist = (price − MA50)/MA50 × 100` (0 if MA50 is 0). -/
def meanRevSpecSignal (price ma50 rsi week_position : ℚ) : SignalStrength :=
  let dist : ℚ := if ma50 = 0 then 0 else (price - ma50) / ma50 * 100
  if rsi < 30 ∧ dist < -5 then .STRONG_BUY
  else if rsi > 70 ∧ dist > 5 then .SELL
  else if rsi < 40 ∧ week_position < 30 then .BUY
  else if rsi > 60 ∧ week_position > 70 then .WEAK_SELL
  else .HOLD

/-- The spec's priority rule table for the Band+Oscillator expert,
amended at the middle-band boundary: the code sends an oscillator of
exactly −50 to the WEAK_SELL fallback, so the WEAK_BUY row reads
`oscillator < −50` (strict), not `≤ −50`. -/
def bbCciSpecSignal (bb_position : String) (cci : ℚ) : SignalStrength :=
  if bb_position = "lower" ∧ cci < -100 then .STRONG_BUY
  else if bb_position = "lower" ∨ cci < -100 then .BUY
  else if bb_position = "upper" ∧ cci > 100 then .SELL
  else if bb_position = "upper" ∨ cci > 100 then .WEAK_SELL
  else if bb_position = "middle" then
    if -50 < cci ∧ cci < 50 then .HOLD
    else if cci < -50 then .WEAK_BUY
    else .WEAK_SELL
  else .HOLD

/-- The spec's disagreement measure: max minus min of the five expert
signal scores. -/
def disagreementFive (e1 e2 e3 e4 e5 : ExpertOpinion) : ℚ :=
  max (max (max (max e1.signal.score e2.signal.score) e3.signal.score)
      e4.signal.score) e5.signal.score
    - min (min (min (min e1.signal.score e2.signal.score) e3.signal.score)
      e4.signal.score) e5.signal.score

/-- A concrete all-HOLD expert opinion, used to instantiate theorems
with hypotheses at a witness input. -/
def holdOpinion : ExpertOpinion :=
  { expert_name := "expert"
    signal := .HOLD
    reasoning := .fundamental (.neutral 50)
    confidence := 0.65 }

/-! Theorems. -/

/-- Every signal score is non-negative. -/
theorem score_nonneg (s : SignalStrength) : 0 ≤ s.score := by
  cases s <;> norm_num [SignalStrength.score]

/-- Every signal score is at most five. -/
theorem score_le_five (s : SignalStrength) : s.score ≤ 5 := by
  cases s <;> norm_num [SignalStrength.score]

/-- The spec's threshold table is monotone in the averaged score. -/
theorem signalFromAvg_mono {a b : ℚ} (h : a ≤ b) :
    (signalFromAvg a).score ≤ (signalFromAvg b).score := by
  unfold signalFromAvg
  split_ifs <;> norm_num [SignalStrength.score] <;> linarith

/-- The `max`/`min` folds of `_calculate_consensus` compute the spec's
disagreement measure. -/
theorem foldl_max_min_disagreement (e1 e2 e3 e4 e5 : ExpertOpinion) :
    ([e1.signal.score, e2.signal.score, e3.signal.score, e4.signal.score,
        e5.signal.score].foldl max e1.signal.score)
      - ([e1.signal.score, e2.signal.score, e3.signal.score, e4.signal.score,
        e5.signal.score].foldl min e1.signal.score)
      = disagreementFive e1 e2 e3 e4 e5 := by
  simp [List.foldl, disagreementFive, max_self, min_self]

/-- C1 (amended): `analyze_asset` returns absent exactly when the
reading is an empty mapping; an absent or zero `current_price` in an
otherwise non-empty reading does not short-circuit the analysis. -/
theorem analyzeAsset_none_iff_empty :
    ∀ (symbol : String) (r : Reading),
      analyzeAsset symbol r = none ↔ r.isEmpty = true := by
  intro symbol r
  unfold analyzeAsset
  split_ifs with h
  · simp [h]
  · simp [h]

/-- C1 counterexample: a reading that only carries `current_price = 0`
is not empty, and `analyze_asset` returns a recommendation for it —
refuting the claim that a zero price yields no recommendation. -/
theorem analyzeAsset_zero_price_some :
    (analyzeAsset "X" { current_price := some 0 }).isSome = true := by
  rfl

/-- C4 (amended): the Band+Oscillator expert's signal follows the
spec's priority rule table for every input, with the middle-band
WEAK_BUY row read strictly (`oscillator < −50`); at exactly −50 the
middle branch falls through to WEAK_SELL. -/
theorem bb_cci_spec_amended :
    ∀ (price bb_upper bb_lower bb_middle : ℚ) (bb_position : String)
      (bb_width cci_120 : ℚ),
      (bbCciAnalysis price bb_upper bb_lower bb_middle bb_position bb_width cci_120).1
        = bbCciSpecSignal bb_position cci_120 := by
  intro price bb_upper bb_lower bb_middle bb_position bb_width cci_120
  unfold bbCciAnalysis bbCciSpecSignal
  dsimp only
  split_ifs <;> rfl

/-- C4 counterexample: at band-position `middle` with oscillator
exactly −50 the code returns WEAK_SELL, not the WEAK_BUY the claim's
`≤ −50` row predicts. -/
theorem bb_cci_middle_minus_fifty :
    (bbCciAnalysis 100 102 98 100 "middle" 4 (-50)).1 = SignalStrength.WEAK_SELL
    ∧ (bbCciAnalysis 100 102 98 100 "middle" 4 (-50)).1 ≠ SignalStrength.WEAK_BUY := by
  constructor
  · rfl
  · decide

/-- C6: the Trend expert returns HOLD with the data-insufficient
reason (and no note) whenever MA50 is zero; otherwise its signal is
exactly the spec's priority table — independent of the 120-period MA —
and the 120-SMA note is appended to the reasoning precisely when the
120-period MA is nonzero. -/
theorem trend_analysis_spec :
    ∀ price ma10 ma50 change_1d ma_120 : ℚ,
      (ma50 = 0 →
        trendAnalysis price ma10 ma50 change_1d ma_120
          = (.HOLD, .insufficientData, none))
      ∧ (ma50 ≠ 0 →
          (trendAnalysis price ma10 ma50 change_1d ma_120).1
              = trendSpecSignal price ma10 ma50 change_1d
          ∧ ((trendAnalysis price ma10 ma50 change_1d ma_120).2.2 = none
              ↔ ma_120 = 0)) := by
  intro price ma10 ma50 change_1d ma_120
  constructor
  · intro h
    unfold trendAnalysis
    rw [if_pos h]
  · intro h
    unfold trendAnalysis trendSpecSignal
    rw [if_neg h]
    dsimp only
    constructor
    · split_ifs <;> rfl
    · split_ifs with h120
      · simp [h120]
      · simpa using not_not.mp h120

/-- C6 witness: the theorem applied at concrete inputs, covering both
the MA50-zero branch and a nonzero branch with a nonzero 120 MA. -/
theorem trend_analysis_spec_witness :
    trendAnalysis 1 1 0 0 7 = (.HOLD, .insufficientData, none)
    ∧ (trendAnalysis 2 1.5 1 1 7).1 = trendSpecSignal 2 1.5 1 1
    ∧ ((trendAnalysis 2 1.5 1 1 7).2.2 = none ↔ (7 : ℚ) = 0) := by
  refine ⟨(trend_analysis_spec 1 1 0 0 7).1 rfl, ?_, ?_⟩
  · exact ((trend_analysis_spec 2 1.5 1 1 7).2 (by norm_num)).1
  · exact ((trend_analysis_spec 2 1.5 1 1 7).2 (by norm_num)).2

/-- C7: the Mean-Reversion expert's signal follows the spec's priority
rule table for every input, and in particular an oscillator of 25 with
a −8% distance to MA50 (price 92, MA50 100) yields STRONG_BUY for any
range position and daily change. -/
theorem mean_reversion_spec :
    (∀ price ma50 rsi week_position change_1d : ℚ,
      (meanReversionAnalysis price ma50 rsi week_position change_1d).1
        = meanRevSpecSignal price ma50 rsi week_position)
    ∧ ∀ week_position change_1d : ℚ,
        (meanReversionAnalysis 92 100 25 week_position change_1d).1
          = SignalStrength.STRONG_BUY := by
  constructor
  · intro price ma50 rsi week_position change_1d
    have hd : (if ma50 ≠ 0 then (price - ma50) / ma50 * 100 else 0)
        = (if ma50 = 0 then 0 else (price - ma50) / ma50 * 100) := by
      rcases eq_or_ne ma50 0 with h | h
      · rw [if_neg (not_not_intro h), if_pos h]
      · rw [if_pos h, if_neg h]
    unfold meanReversionAnalysis meanRevSpecSignal
    dsimp only
    rw [hd]
    split_ifs <;> rfl
  · intro week_position change_1d
    unfold meanReversionAnalysis
    norm_num

/-- C8: the stop-loss and take-profit formulas: for a composite Signal
score ≥4 the stop distance is max(volatility×1.5, 5)% and the target
distance max(volatility×3, 10)%; for score ≤1 the stop distance is
max(volatility, 3)%; otherwise both distances are volatility×2%; prices
are price×(1∓distance/100). -/
theorem stop_take_profit_spec :
    ∀ (price volatility : ℚ) (s : SignalStrength),
      (4 ≤ s.score →
        calculateStopLoss price volatility s
            = price * (1 - max (volatility * 1.5) 5 / 100)
        ∧ calculateTakeProfit price volatility s
            = price * (1 + max (volatility * 3) 10 / 100))
      ∧ (s.score ≤ 1 →
        calculateStopLoss price volatility s = price * (1 - max volatility 3 / 100)
        ∧ calculateTakeProfit price volatility s = price * (1 + volatility * 2 / 100))
      ∧ (1 < s.score → s.score < 4 →
        calculateStopLoss price volatility s = price * (1 - volatility * 2 / 100)
        ∧ calculateTakeProfit price volatility s = price * (1 + volatility * 2 / 100)) := by
  intro price volatility s
  unfold calculateStopLoss calculateTakeProfit
  dsimp only
  refine ⟨fun h => ⟨?_, ?_⟩, fun h => ⟨?_, ?_⟩, fun h1 h2 => ⟨?_, ?_⟩⟩
  · rw [if_pos h]
  · rw [if_pos h]
  · rw [if_neg (by linarith : ¬ s.score ≥ 4), if_pos h]
  · rw [if_neg (by linarith : ¬ s.score ≥ 4)]
  · rw [if_neg (by linarith : ¬ s.score ≥ 4), if_neg (by linarith : ¬ s.score ≤ 1)]
  · rw [if_neg (by linarith : ¬ s.score ≥ 4)]

/-- C8 witness: the formulas evaluated at price 100, volatility 2, for
a BUY, a SELL and a HOLD composite signal. -/
theorem stop_take_profit_spec_witness :
    (calculateStopLoss 100 2 SignalStrength.BUY = 100 * (1 - max (2 * 1.5) 5 / 100)
      ∧ calculateTakeProfit 100 2 SignalStrength.BUY = 100 * (1 + max (2 * 3) 10 / 100))
    ∧ (calculateStopLoss 100 2 SignalStrength.SELL = 100 * (1 - max 2 3 / 100)
      ∧ calculateTakeProfit 100 2 SignalStrength.SELL = 100 * (1 + 2 * 2 / 100))
    ∧ (calculateStopLoss 100 2 SignalStrength.HOLD = 100 * (1 - 2 * 2 / 100)
      ∧ calculateTakeProfit 100 2 SignalStrength.HOLD = 100 * (1 + 2 * 2 / 100)) :=
  ⟨(stop_take_profit_spec 100 2 .BUY).1 (by norm_num [SignalStrength.score]),
    (stop_take_profit_spec 100 2 .SELL).2.1 (by norm_num [SignalStrength.score]),
    (stop_take_profit_spec 100 2 .HOLD).2.2 (by norm_num [SignalStrength.score])
      (by norm_num [SignalStrength.score])⟩

/-- C10: for a positive price, non-negative volatility and a composite
Signal score ≥4, the bracket is correctly ordered:
stop-loss < price < take-profit (the stop distance is floored at 5%,
the target distance at 10%, so volatility 0 is fine). -/
theorem buy_bracket_spec :
    ∀ (price volatility : ℚ) (s : SignalStrength),
      0 < price → 0 ≤ volatility → 4 ≤ s.score →
      calculateStopLoss price volatility s < price
      ∧ price < calculateTakeProfit price volatility s := by
  intro price volatility s hp hv hs
  unfold calculateStopLoss calculateTakeProfit
  dsimp only
  rw [if_pos hs, if_pos hs]
  constructor
  · have h5 : (5 : ℚ) ≤ max (volatility * 1.5) 5 := le_max_right _ _
    have hpos : 0 < price * (max (volatility * 1.5) 5 / 100) :=
      mul_pos hp (by linarith)
    nlinarith [hpos]
  · have h10 : (10 : ℚ) ≤ max (volatility * 3) 10 := le_max_right _ _
    have hpos : 0 < price * (max (volatility * 3) 10 / 100) :=
      mul_pos hp (by linarith)
    nlinarith [hpos]

/-- C10 witness: zero volatility, price 100, composite BUY — the
bracket is still strictly ordered around the price. -/
theorem buy_bracket_spec_witness :
    calculateStopLoss 100 0 SignalStrength.BUY < 100
    ∧ (100 : ℚ) < calculateTakeProfit 100 0 SignalStrength.BUY :=
  buy_bracket_spec 100 0 SignalStrength.BUY (by norm_num) (by norm_num)
    (by norm_num [SignalStrength.score])

/-- C3: the composite score is (average of the five signal scores)/5 ×
100, always within [0,100]; the composite Signal is the spec's
threshold table applied to the average; and both the threshold table
and the score map are monotone non-decreasing in the average. -/
theorem consensus_score_monotone_spec :
    ∀ e1 e2 e3 e4 e5 : ExpertOpinion,
      (calculateConsensus e1 e2 e3 e4 e5).2.1
          = ((e1.signal.score + e2.signal.score + e3.signal.score + e4.signal.score
              + e5.signal.score) / 5) / 5 * 100
      ∧ 0 ≤ (calculateConsensus e1 e2 e3 e4 e5).2.1
      ∧ (calculateConsensus e1 e2 e3 e4 e5).2.1 ≤ 100
      ∧ (calculateConsensus e1 e2 e3 e4 e5).1
          = signalFromAvg ((e1.signal.score + e2.signal.score + e3.signal.score
              + e4.signal.score + e5.signal.score) / 5)
      ∧ (∀ a b : ℚ, a ≤ b →
          (signalFromAvg a).score ≤ (signalFromAvg b).score
          ∧ a / 5 * 100 ≤ b / 5 * 100) := by
  intro e1 e2 e3 e4 e5
  have hscore : (calculateConsensus e1 e2 e3 e4 e5).2.1
      = (e1.signal.score * 0.2 + (e2.signal.score * 0.2 + (e3.signal.score * 0.2
          + (e4.signal.score * 0.2 + (e5.signal.score * 0.2 + 0))))) / 5 * 100 := rfl
  have hsig : (calculateConsensus e1 e2 e3 e4 e5).1
      = signalFromAvg (e1.signal.score * 0.2 + (e2.signal.score * 0.2
          + (e3.signal.score * 0.2 + (e4.signal.score * 0.2
          + (e5.signal.score * 0.2 + 0))))) := rfl
  have hn1 := score_nonneg e1.signal
  have hn2 := score_nonneg e2.signal
  have hn3 := score_nonneg e3.signal
  have hn4 := score_nonneg e4.signal
  have hn5 := score_nonneg e5.signal
  have hf1 := score_le_five e1.signal
  have hf2 := score_le_five e2.signal
  have hf3 := score_le_five e3.signal
  have hf4 := score_le_five e4.signal
  have hf5 := score_le_five e5.signal
  refine ⟨?_, ?_, ?_, ?_, ?_⟩
  · rw [hscore]; ring
  · rw [hscore]; linarith
  · rw [hscore]; linarith
  · rw [hsig]; exact congrArg signalFromAvg (by ring)
  · intro a b h
    exact ⟨signalFromAvg_mono h, by linarith⟩

/-- C3 witness: the monotonicity conjunct instantiated at averages 1
and 2 through the theorem. -/
theorem consensus_score_monotone_spec_witness :
    (signalFromAvg 1).score ≤ (signalFromAvg 2).score
    ∧ (1 : ℚ) / 5 * 100 ≤ (2 : ℚ) / 5 * 100 :=
  (consensus_score_monotone_spec holdOpinion holdOpinion holdOpinion holdOpinion
    holdOpinion).2.2.2.2 1 2 (by norm_num)

/-- C9: the consensus risk tier is High exactly when the disagreement
(max minus min of the five signal scores) is ≥3, Medium exactly when it
is in [2,3), Low exactly when it is <2; and five all-HOLD experts give
disagreement 0, composite HOLD, composite score exactly 40, the
high-consensus reasoning branch, and the Low risk tier. -/
theorem risk_tier_spec :
    ∀ e1 e2 e3 e4 e5 : ExpertOpinion,
      ((calculateConsensus e1 e2 e3 e4 e5).2.2.2 = "高"
        ↔ 3 ≤ disagreementFive e1 e2 e3 e4 e5)
      ∧ ((calculateConsensus e1 e2 e3 e4 e5).2.2.2 = "中"
        ↔ 2 ≤ disagreementFive e1 e2 e3 e4 e5 ∧ disagreementFive e1 e2 e3 e4 e5 < 3)
      ∧ ((calculateConsensus e1 e2 e3 e4 e5).2.2.2 = "低"
        ↔ disagreementFive e1 e2 e3 e4 e5 < 2)
      ∧ (e1.signal = .HOLD → e2.signal = .HOLD → e3.signal = .HOLD →
          e4.signal = .HOLD → e5.signal = .HOLD →
          disagreementFive e1 e2 e3 e4 e5 = 0
          ∧ calculateConsensus e1 e2 e3 e4 e5
              = (.HOLD, 40, .highConsensus, "低")) := by
  intro e1 e2 e3 e4 e5
  have hb := foldl_max_min_disagreement e1 e2 e3 e4 e5
  have hrisk : (calculateConsensus e1 e2 e3 e4 e5).2.2.2
      = (if 3 ≤ disagreementFive e1 e2 e3 e4 e5 then "高"
         else if 2 ≤ disagreementFive e1 e2 e3 e4 e5 then "中" else "低") := by
    rw [← hb]; rfl
  refine ⟨?_, ?_, ?_, ?_⟩
  · rw [hrisk]; split_ifs with h3 h2
    · exact ⟨fun _ => h3, fun _ => rfl⟩
    · exact ⟨fun hs => absurd hs (by decide), fun hd => absurd hd h3⟩
    · exact ⟨fun hs => absurd hs (by decide), fun hd => absurd hd h3⟩
  · rw [hrisk]; split_ifs with h3 h2
    · exact ⟨fun hs => absurd hs (by decide), fun hd => absurd h3 (not_le.mpr hd.2)⟩
    · exact ⟨fun _ => ⟨h2, not_le.mp h3⟩, fun _ => rfl⟩
    · exact ⟨fun hs => absurd hs (by decide), fun hd => absurd hd.1 h2⟩
  · rw [hrisk]; split_ifs with h3 h2
    · constructor
      · intro hs; exact absurd hs (by decide)
      · intro hd; exfalso; linarith
    · constructor
      · intro hs; exact absurd hs (by decide)
      · intro hd; exfalso; linarith
    · exact ⟨fun _ => not_le.mp h2, fun _ => rfl⟩
  · intro h1 h2 h3 h4 h5
    constructor
    · unfold disagreementFive
      rw [h1, h2, h3, h4, h5]
      norm_num [SignalStrength.score]
    · show calculateConsensus e1 e2 e3 e4 e5 = _
      unfold calculateConsensus
      rw [h1, h2, h3, h4, h5]
      norm_num [SignalStrength.score, List.countP, List.countP.go, List.foldl,
        List.zip, List.zipWith, List.map, List.sum, List.foldr]

/-- C9 witness: the all-HOLD scenario instantiated at a concrete
opinion through the theorem. -/
theorem risk_tier_spec_witness :
    disagreementFive holdOpinion holdOpinion holdOpinion holdOpinion holdOpinion = 0
    ∧ calculateConsensus holdOpinion holdOpinion holdOpinion holdOpinion holdOpinion
        = (.HOLD, 40, .highConsensus, "低") :=
  (risk_tier_spec holdOpinion holdOpinion holdOpinion holdOpinion holdOpinion).2.2.2
    rfl rfl rfl rfl rfl

/-- Overall-rank assignment writes the consecutive positions
`n, n+1, …` into the visited list. -/
theorem assignOverallFrom_map_rank :
    ∀ (l : List AssetRecommendation) (n : ℕ),
      (assignOverallFrom n l).map (fun r => r.overall_rank)
        = List.range' n l.length := by
  intro l
  induction l with
  | nil => intro n; simp [assignOverallFrom]
  | cons rec rest ih =>
      intro n
      simp only [assignOverallFrom, List.map_cons, List.length_cons, List.range'_succ]
      exact congrArg _ (ih (n + 1))

/-- Overall-rank assignment changes nothing but the rank fields. -/
theorem assignOverallFrom_map_resetRanks :
    ∀ (l : List AssetRecommendation) (n : ℕ),
      (assignOverallFrom n l).map resetRanks = l.map resetRanks := by
  intro l
  induction l with
  | nil => intro n; rfl
  | cons rec rest ih =>
      intro n
      simp only [assignOverallFrom, List.map_cons]
      exact congrArg _ (ih (n + 1))

/-- Category-rank assignment changes nothing but the rank fields. -/
theorem assignCatRanks_map_resetRanks :
    ∀ (l : List AssetRecommendation) (f : String → ℕ),
      (assignCatRanks f l).map resetRanks = l.map resetRanks := by
  intro l
  induction l with
  | nil => intro f; rfl
  | cons rec rest ih =>
      intro f
      simp only [assignCatRanks, List.map_cons]
      exact congrArg _ (ih _)

/-- Category-rank assignment preserves every `overall_rank`. -/
theorem assignCatRanks_map_overall :
    ∀ (l : List AssetRecommendation) (f : String → ℕ),
      (assignCatRanks f l).map (fun r => r.overall_rank)
        = l.map (fun r => r.overall_rank) := by
  intro l
  induction l with
  | nil => intro f; rfl
  | cons rec rest ih =>
      intro f
      simp only [assignCatRanks, List.map_cons]
      exact congrArg _ (ih _)

/-- The running per-category counter hands the members of category `c`
the consecutive ranks `f c + 1, f c + 2, …` in visit order. -/
theorem assignCatRanks_filter_rank (c : String) :
    ∀ (l : List AssetRecommendation) (f : String → ℕ),
      ((assignCatRanks f l).filter (fun r => decide (r.category = c))).map
          (fun r => r.rank_in_category)
        = List.range' (f c + 1)
            ((l.filter (fun r => decide (r.category = c))).length) := by
  intro l
  induction l with
  | nil => intro f; simp [assignCatRanks]
  | cons rec rest ih =>
      intro f
      simp only [assignCatRanks, List.filter_cons]
      by_cases hc : rec.category = c
      · simp [hc, ih, List.range'_succ]
      · simp [hc, Ne.symm hc, ih]

/-- Inserting a record into a list does not disturb the subsequence of
records carrying any fixed composite score: the new record lands in
front of that subsequence when it carries the score itself, because the
records it is placed behind all carry strictly greater scores. -/
theorem filter_score_orderedInsert (c : ℚ) (a : AssetRecommendation) :
    ∀ L : List AssetRecommendation,
      (List.orderedInsert scoreGE a L).filter (fun r => decide (r.consensus_score = c))
        = if a.consensus_score = c
            then a :: L.filter (fun r => decide (r.consensus_score = c))
            else L.filter (fun r => decide (r.consensus_score = c)) := by
  intro L
  induction L with
  | nil =>
      by_cases h : a.consensus_score = c <;>
        simp [List.orderedInsert, List.filter, h]
  | cons b L ih =>
      simp only [List.orderedInsert]
      by_cases hr : scoreGE a b
      · rw [if_pos hr]
        by_cases h : a.consensus_score = c <;>
          simp [List.filter_cons, h]
      · rw [if_neg hr]
        by_cases h : a.consensus_score = c
        · have hb : ¬ (b.consensus_score = c) := by
            intro hbc
            exact hr (le_of_eq (hbc.trans h.symm))
          simp [List.filter_cons, hb, h, ih]
        · by_cases hb : b.consensus_score = c <;>
            simp [List.filter_cons, hb, h, ih]

/-- Stability of the sort: for every composite score, the subsequence
of records carrying that score is identical before and after sorting. -/
theorem filter_score_sortRecs (c : ℚ) :
    ∀ l : List AssetRecommendation,
      (sortRecs l).filter (fun r => decide (r.consensus_score = c))
        = l.filter (fun r => decide (r.consensus_score = c)) := by
  intro l
  induction l with
  | nil => rfl
  | cons a l ih =>
      show (List.orderedInsert scoreGE a (sortRecs l)).filter _ = _
      rw [filter_score_orderedInsert]
      by_cases h : a.consensus_score = c <;>
        simp [List.filter_cons, h, ih]

/-- Rank assignment changes nothing but the rank fields of the sorted
list. -/
theorem analyzeAll_map_resetRanks (d : List (String × List (String × Reading))) :
    (analyzeAll d).map resetRanks
      = (sortRecs (enumerateRecs d)).map resetRanks := by
  show ((assignCatRanks _ (assignOverallFrom 1 _)).map resetRanks) = _
  rw [assignCatRanks_map_resetRanks, assignOverallFrom_map_resetRanks]

/-- The recommendation list `analyze_all` returns is ordered by
non-increasing composite score. -/
theorem analyzeAll_pairwise (d : List (String × List (String × Reading))) :
    (analyzeAll d).Pairwise scoreGE := by
  have hs : List.Pairwise scoreGE (sortRecs (enumerateRecs d)) :=
    List.sorted_insertionSort scoreGE (enumerateRecs d)
  have hcomp : ∀ l : List AssetRecommendation,
      l.map (fun r => r.consensus_score)
        = (l.map resetRanks).map (fun r => r.consensus_score) := by
    intro l
    rw [List.map_map]
    rfl
  have hmap : (analyzeAll d).map (fun r => r.consensus_score)
      = (sortRecs (enumerateRecs d)).map (fun r => r.consensus_score) := by
    rw [hcomp, analyzeAll_map_resetRanks, ← hcomp]
  have hout : List.Pairwise (fun x y : ℚ => y ≤ x)
      ((analyzeAll d).map (fun r => r.consensus_score)) := by
    rw [hmap]
    exact List.pairwise_map.mpr hs
  exact (@List.pairwise_map AssetRecommendation ℚ (fun r => r.consensus_score)
    (fun x y : ℚ => y ≤ x) (analyzeAll d)).mp hout

/-- Overall-rank assignment keeps the list length. -/
theorem assignOverallFrom_length :
    ∀ (l : List AssetRecommendation) (n : ℕ),
      (assignOverallFrom n l).length = l.length := by
  intro l
  induction l with
  | nil => intro n; rfl
  | cons rec rest ih =>
      intro n
      simp only [assignOverallFrom, List.length_cons, ih]

/-- Category-rank assignment keeps the list length. -/
theorem assignCatRanks_length :
    ∀ (l : List AssetRecommendation) (f : String → ℕ),
      (assignCatRanks f l).length = l.length := by
  intro l
  induction l with
  | nil => intro f; rfl
  | cons rec rest ih =>
      intro f
      simp only [assignCatRanks, List.length_cons, ih]

/-- C2: `analyze_all` assigns `overall_rank` as the dense permutation
1..N of positions in the returned list; the list is ordered by
non-increasing composite score; and, for every composite score, the
records carrying that score appear in exactly the order the input
enumeration produced them (stable sort), ranks aside. -/
theorem analyzeAll_overall_rank_spec :
    ∀ d : List (String × List (String × Reading)),
      ((analyzeAll d).map (fun r => r.overall_rank)
          = List.range' 1 (analyzeAll d).length)
      ∧ (analyzeAll d).Pairwise (fun a b => b.consensus_score ≤ a.consensus_score)
      ∧ ∀ c : ℚ,
          ((analyzeAll d).filter
              (fun r => decide (r.consensus_score = c))).map resetRanks
            = ((enumerateRecs d).filter
              (fun r => decide (r.consensus_score = c))).map resetRanks := by
  intro d
  refine ⟨?_, analyzeAll_pairwise d, ?_⟩
  · show ((assignCatRanks (fun _ => 0)
        (assignOverallFrom 1 (sortRecs (enumerateRecs d)))).map
        (fun r => r.overall_rank)) = _
    rw [assignCatRanks_map_overall, assignOverallFrom_map_rank]
    have hl : (analyzeAll d).length = (sortRecs (enumerateRecs d)).length := by
      show (assignCatRanks (fun _ => 0)
          (assignOverallFrom 1 (sortRecs (enumerateRecs d)))).length = _
      rw [assignCatRanks_length, assignOverallFrom_length]
    rw [hl]
  · intro c
    have hp : (fun r : AssetRecommendation => decide (r.consensus_score = c))
        = (fun x : AssetRecommendation => decide (x.consensus_score = c)) ∘ resetRanks := by
      funext r; rfl
    rw [hp, ← List.filter_map, analyzeAll_map_resetRanks, List.filter_map, ← hp,
      filter_score_sortRecs]

/-- C5: within every category, `analyze_all` assigns `rank_in_category`
as the dense permutation 1..M of positions in the category's
subsequence of the returned list, and that subsequence is ordered by
non-increasing composite score (so a lower in-category rank never has a
lower score). -/
theorem rank_in_category_spec :
    ∀ (d : List (String × List (String × Reading))) (c : String),
      (((analyzeAll d).filter (fun r => decide (r.category = c))).map
          (fun r => r.rank_in_category)
        = List.range' 1
            (((analyzeAll d).filter (fun r => decide (r.category = c))).length))
      ∧ ((analyzeAll d).filter (fun r => decide (r.category = c))).Pairwise
          (fun a b => b.consensus_score ≤ a.consensus_score) := by
  intro d c
  constructor
  · show ((assignCatRanks (fun _ => 0)
        (assignOverallFrom 1 (sortRecs (enumerateRecs d)))).filter
          (fun r => decide (r.category = c))).map (fun r => r.rank_in_category)
      = List.range' 1
          (((assignCatRanks (fun _ => 0)
            (assignOverallFrom 1 (sortRecs (enumerateRecs d)))).filter
            (fun r => decide (r.category = c))).length)
    rw [assignCatRanks_filter_rank]
    have hlen : ((assignCatRanks (fun _ => 0)
          (assignOverallFrom 1 (sortRecs (enumerateRecs d)))).filter
          (fun r => decide (r.category = c))).length
        = ((assignOverallFrom 1 (sortRecs (enumerateRecs d))).filter
          (fun r => decide (r.category = c))).length := by
      have h6 := congrArg List.length
        (assignCatRanks_filter_rank c
          (assignOverallFrom 1 (sortRecs (enumerateRecs d))) (fun _ => 0))
      simpa [List.length_map, List.length_range'] using h6
    rw [hlen]
  · exact (analyzeAll_pairwise d).filter _

end Advisory
